import Mathlib

/-
Shallow embedding of the NotifyFlow notification scheduling and delivery
engine.

Sources embedded here:
  backend/utils/notificationScheduler.js  (src/unnamed/part_006)
  backend/server.js socket handlers       (src/unnamed/part_005)
  backend/routes/notifications.js
  backend/routes/routines.js
  backend/models/Notification.js, backend/models/Routine.js

Conventions: timestamps are epoch milliseconds (Int); the sound volume is
carried in hundredths (70 stands for the JavaScript default 0.7) because no
arithmetic is ever performed on it; Mongo documents become Lean structures
and a collection becomes a List.
-/

namespace NotifyFlow

/-- Status values of the notification state machine.  The schema enum in
Notification.js lists pending, delivered, completed, dismissed and snoozed;
the scheduler additionally writes cancelled via updateMany, which skips
schema validation, so cancelled can be stored.  failed is part of the status
vocabulary (the cleanup query and the dispatcher's catch block name it) but
the catch block writes it through save(), which the enum validation rejects,
so no stored document ever carries failed. -/
inductive NStatus
  | pending
  | delivered
  | completed
  | dismissed
  | snoozed
  | cancelled
  | failed
deriving DecidableEq, Repr

/-- The three caller-facing response actions handled by the response code. -/
inductive RAction
  | completed
  | dismissed
  | snoozed
deriving DecidableEq, Repr

/-- The userResponse subdocument of a notification.  The HTTP route stores
`responseTime || 0` (always a number); the socket handler stores the raw,
possibly absent, value — hence the Option. -/
structure UserResponse where
  action : String
  responseTime : Option Int
  timestamp : Int
deriving DecidableEq, Repr

/-- A notification document (backend/models/Notification.js).  The
`processing` flag is used by the HTTP response route as a mutual-exclusion
marker.  `metaAdaptiveAdjustment` embeds metadata.adaptiveAdjustment. -/
structure Notification where
  id : Nat
  user : Nat
  routine : Nat
  title : String
  message : String
  ntype : String := "alarm"
  sound : String := "chime"
  volume : Nat := 70
  status : NStatus := .pending
  scheduledFor : Int
  deliveredAt : Option Int := none
  completedAt : Option Int := none
  snoozedUntil : Option Int := none
  userResponse : Option UserResponse := none
  deliveryAttempts : Nat := 0
  processing : Bool := false
  metaAdaptiveAdjustment : Int := 0
deriving DecidableEq, Repr

/-- One schedule entry of a routine: a time-of-day string in HH:MM form and
the weekdays (0..6) on which it fires. -/
structure ScheduleEntry where
  time : String
  days : List Nat
deriving DecidableEq, Repr

/-- The adaptiveTiming subdocument of a routine (backend/models/Routine.js):
enabled defaults to true, adjustment (the offset in minutes) to 0. -/
structure AdaptiveTiming where
  enabled : Bool := true
  adjustment : Int := 0
  lastAdjustment : Option Int := none
deriving DecidableEq, Repr

/-- A routine document (backend/models/Routine.js). -/
structure Routine where
  id : Nat
  user : Nat
  title : String
  description : String
  category : String := "personal"
  schedule : List ScheduleEntry := []
  sound : String := "chime"
  volume : Nat := 70
  isActive : Bool := true
  priority : Nat := 1
  adaptiveTiming : AdaptiveTiming := {}
  snoozeDuration : Nat := 5
  maxSnoozes : Nat := 3
deriving DecidableEq, Repr

/-- A socket.io emission performed by the backend: `target = some u` is an
emit into the room of user u (only the sessions of u receive it);
`target = none` is `io.emit`, a broadcast every connected session receives. -/
structure Payload where
  id : Nat
  title : String
  message : String
  sound : String
  volume : Nat
  routineId : Nat
  timestamp : Int
  ptype : String
deriving DecidableEq, Repr

structure Emit where
  target : Option Nat
  event : String
  payload : Payload
deriving DecidableEq, Repr

/-- Whether a connected session of user `uid` receives an emission: room
emits reach only the room owner, io.emit broadcasts reach everyone. -/
def sessionReceives (uid : Nat) (e : Emit) : Bool :=
  match e.target with
  | none => true
  | some u => u == uid

/- ===== Adaptive timing (notificationScheduler.js updateAdaptiveTiming) ==== -/

/-- Core of NotificationScheduler.updateAdaptiveTiming: the switch on the
response action.  Each branch carries its own one-sided clamp exactly as in
the source: Math.max(-10, a-1), Math.min(10, a+2), Math.min(15, a+5),
Math.min(10, a+3). -/
def nextAdjustment (adjustment : Int) (action : RAction) (responseTime : Int) : Int :=
  match action with
  | .completed =>
      if responseTime < 30 then max (-10) (adjustment - 1)
      else if responseTime > 120 then min 10 (adjustment + 2)
      else adjustment
  | .dismissed => min 15 (adjustment + 5)
  | .snoozed => min 10 (adjustment + 3)

/-- NotificationScheduler.updateAdaptiveTiming: no-op unless the routine has
adaptiveTiming.enabled; otherwise store the new adjustment and set
lastAdjustment to now. -/
def updateAdaptiveTiming (r : Routine) (action : RAction) (responseTime : Int)
    (now : Int) : Routine :=
  if r.adaptiveTiming.enabled then
    { r with adaptiveTiming :=
        { r.adaptiveTiming with
            adjustment := nextAdjustment r.adaptiveTiming.adjustment action responseTime,
            lastAdjustment := some now } }
  else r

/-- Modelled from the spec: the rule table of claim C2 — a signed delta per
action followed by a symmetric clamp of the result to [-15, +15].  Used only
to compare the spec wording with the source behaviour. -/
def claimedAdjustment (adjustment : Int) (action : RAction) (responseTime : Int) : Int :=
  let delta : Int :=
    match action with
    | .completed =>
        if responseTime < 30 then -1
        else if responseTime > 120 then 2
        else 0
    | .dismissed => 5
    | .snoozed => 3
  min 15 (max (-15) (adjustment + delta))

/- ===== Dispatch (notificationScheduler.js sendRealTimeNotification) ===== -/

/-- The payload built by sendRealTimeNotification, all fields read from the
routine with the JavaScript || defaults (empty description, empty sound and
zero volume are falsy). -/
def notificationPayload (n : Notification) (r : Routine) (now : Int) : Payload :=
  { id := n.id
    title := r.title
    message := if r.description == "" then "Time for " ++ r.title else r.description
    sound := if r.sound == "" then "chime" else r.sound
    volume := if r.volume == 0 then 70 else r.volume
    routineId := r.id
    timestamp := now
    ptype := "alarm" }

/-- NotificationScheduler.sendRealTimeNotification.  `ioPresent` models the
`if (!this.io) return` guard, `pushThrows` models the transport throwing
inside the try block.  On success the payload is emitted twice — once into
the owning user room and once via io.emit as notification-broadcast to every
connection — then status becomes delivered with deliveredAt set (and no
change to deliveryAttempts).  On a throw the catch block assigns status
failed with deliveryAttempts + 1 in memory and calls save(), but the status
enum of the Notification schema has no failed value, so that save is
rejected by validation and the stored document is unchanged. -/
def sendRealTimeNotification (n : Notification) (r : Routine)
    (ioPresent pushThrows : Bool) (now : Int) : Notification × List Emit :=
  if !ioPresent then (n, [])
  else if pushThrows then (n, [])
  else
    let p := notificationPayload n r now
    ({ n with status := .delivered, deliveredAt := some now },
     [ { target := some r.user, event := "notification", payload := p },
       { target := none, event := "notification-broadcast", payload := p } ])

/- ===== Creation and duplicate suppression ===== -/

/-- The duplicate query of createAndSendNotification: findOne on the same
user and routine with scheduledFor at least five minutes before now (a lower
bound only — the Mongo query has no upper bound) and status pending,
delivered or snoozed. -/
def hasRecentNotification (store : List Notification) (userId routineId : Nat)
    (now : Int) : Bool :=
  store.any fun n =>
    n.user == userId && n.routine == routineId &&
    decide (now - 5 * 60 * 1000 ≤ n.scheduledFor) &&
    [NStatus.pending, NStatus.delivered, NStatus.snoozed].contains n.status

/-- The adaptive adjustment createAndSendNotification applies: the stored
adjustment when adaptiveTiming is enabled and the adjustment is truthy
(nonzero), else zero. -/
def appliedAdjustment (r : Routine) : Int :=
  if r.adaptiveTiming.enabled && r.adaptiveTiming.adjustment != 0 then
    r.adaptiveTiming.adjustment
  else 0

/-- The pending notification document createAndSendNotification saves for a
due routine: fields copied from the routine with the JavaScript || defaults,
scheduledFor shifted by the applied adjustment in minutes. -/
def dueNotification (r : Routine) (now : Int) (freshId : Nat) : Notification :=
  { id := freshId
    user := r.user
    routine := r.id
    title := r.title
    message := if r.description == "" then "Time for " ++ r.title else r.description
    ntype := "alarm"
    sound := if r.sound == "" then "chime" else r.sound
    volume := if r.volume == 0 then 70 else r.volume
    scheduledFor := now + appliedAdjustment r * 60 * 1000
    status := .pending
    metaAdaptiveAdjustment := appliedAdjustment r }

/-- NotificationScheduler.createAndSendNotification.  The scan passes the
current scan instant as scheduledTime, and Date.now() inside the function is
that same instant, so a single `now` stands for both.  If the duplicate
query hits, the store is returned unchanged (silent skip); otherwise the
pending notification of dueNotification is saved and immediately
dispatched. -/
def createAndSendNotification (store : List Notification) (r : Routine)
    (now : Int) (freshId : Nat) (ioPresent pushThrows : Bool) : List Notification :=
  if hasRecentNotification store r.user r.id now then store
  else
    store ++ [(sendRealTimeNotification (dueNotification r now freshId) r
                 ioPresent pushThrows now).1]

/-- Number of notifications a store holds for a given user and routine. -/
def countFor (store : List Notification) (userId routineId : Nat) : Nat :=
  store.countP fun n => n.user == userId && n.routine == routineId

/- ===== Due matching (notificationScheduler.js checkScheduledRoutines) ==== -/

/-- The Mongo filter of checkScheduledRoutines: isActive must be true and
either some schedule entry matches both the current HH:MM string and the
current weekday, or (the dotted second $or branch, which Mongo evaluates
across possibly different array entries) some entry matches the time and
some entry contains the day. -/
def routineDue (r : Routine) (currentTime : String) (currentDay : Nat) : Bool :=
  r.isActive &&
  ((r.schedule.any fun e => e.time == currentTime && e.days.contains currentDay) ||
   ((r.schedule.any fun e => e.time == currentTime) &&
    (r.schedule.any fun e => e.days.contains currentDay)))

/- ===== Snooze scan (notificationScheduler.js checkSnoozedNotifications) == -/

/-- NotificationScheduler.checkSnoozedNotifications: every notification with
status snoozed and snoozedUntil at or before now is re-dispatched through
sendRealTimeNotification with its populated routine; the routine being
inactive does not exclude it.  A notification whose routine is gone is left
alone. -/
def checkSnoozedNotifications (store : List Notification) (routines : List Routine)
    (now : Int) (ioPresent pushThrows : Bool) : List Notification :=
  store.map fun n =>
    if n.status == .snoozed &&
       (match n.snoozedUntil with
        | some t => decide (t ≤ now)
        | none => false) then
      match routines.find? (fun r => r.id == n.routine) with
      | some r => (sendRealTimeNotification n r ioPresent pushThrows now).1
      | none => n
    else n

/- ===== Routine scheduling / cancellation / toggle ===== -/

/-- NotificationScheduler.scheduleRoutineNotifications: returns the store
unchanged when the routine is inactive (early return), otherwise deletes the
pending and snoozed notifications of that routine. -/
def scheduleRoutineNotifications (r : Routine) (store : List Notification) :
    List Notification :=
  if !r.isActive then store
  else store.filter fun n =>
    !(n.routine == r.id &&
      [NStatus.pending, NStatus.snoozed].contains n.status)

/-- NotificationScheduler.cancelRoutineNotifications: updateMany setting the
pending and snoozed notifications of the routine to cancelled.  (No route or
handler in the repository ever calls this method.) -/
def cancelRoutineNotifications (routineId : Nat) (store : List Notification) :
    List Notification :=
  store.map fun n =>
    if n.routine == routineId &&
       [NStatus.pending, NStatus.snoozed].contains n.status then
      { n with status := .cancelled }
    else n

/-- The PATCH /:id/toggle route of routines.js: flip isActive, save, then
call scheduleRoutineNotifications with the toggled routine. -/
def toggleRoutine (r : Routine) (store : List Notification) :
    Routine × List Notification :=
  let toggled := { r with isActive := !r.isActive }
  (toggled, scheduleRoutineNotifications toggled store)

/- ===== Response processing (routes/notifications.js POST /:id/response) == -/

/-- Outcomes of the HTTP response endpoint: ok carries the JSON-returned
notification; conflict is the 409 already-being-processed answer; notFound
the 404; invalidArgument the 400 for an unrecognized action. -/
inductive HttpOutcome
  | ok (n : Notification)
  | conflict
  | notFound
  | invalidArgument
deriving DecidableEq, Repr

/-- The validActions array of the route. -/
def validActions : List String := ["completed", "snoozed", "dismissed"]

/-- Mapping of a valid action string onto the status the route assigns
(notification.status = action). -/
def statusOfAction (action : String) : NStatus :=
  if action == "completed" then .completed
  else if action == "snoozed" then .snoozed
  else .dismissed

/-- The sequence of writes the route performs on the found notification:
status := action, userResponse := (action, responseTime || 0, now),
completedAt := now when completed, snoozedUntil := now + snoozeMinutes
(default 5) minutes when snoozed, and the processing flag ends false. -/
def applyResponse (n : Notification) (action : String) (responseTime : Option Int)
    (snoozeMinutes : Option Int) (now : Int) : Notification :=
  let base :=
    { n with
        status := statusOfAction action
        userResponse := some
          { action := action, responseTime := some (responseTime.getD 0), timestamp := now }
        processing := false }
  if action == "completed" then { base with completedAt := some now }
  else if action == "snoozed" then
    { base with snoozedUntil := some (now + snoozeMinutes.getD 5 * 60 * 1000) }
  else base

/-- POST /notifications/:id/response.  The route first looks the
notification up by id AND owner AND processing not set; when that misses it
re-queries by id and owner alone, answering 409 if the document exists with
processing set and 404 otherwise (an id owned by another user is therefore a
plain 404).  Then the action is validated against validActions, the
transition of applyResponse is committed, and the store row is replaced.
No check of the current status is ever made. -/
def respondHttp (store : List Notification) (nid uid : Nat) (action : String)
    (responseTime snoozeMinutes : Option Int) (now : Int) :
    HttpOutcome × List Notification :=
  match store.find? (fun n => n.id == nid && n.user == uid && !n.processing) with
  | none =>
    match store.find? (fun n => n.id == nid && n.user == uid) with
    | some n => if n.processing then (.conflict, store) else (.notFound, store)
    | none => (.notFound, store)
  | some n =>
    if validActions.contains action then
      let updated := applyResponse n action responseTime snoozeMinutes now
      (.ok updated, store.map fun m => if m.id == n.id then updated else m)
    else (.invalidArgument, store)

/- ===== Response processing (server.js notification-response handler) ===== -/

/-- Outcomes of the socket notification-response handler: errorMsg carries
the message of a socket.emit of an error event. -/
inductive SocketOutcome
  | ok (n : Notification)
  | errorMsg (msg : String)
deriving DecidableEq, Repr

/-- The socket notification-response handler: findById (by id only, not by
owner); a missing document emits "Notification not found", an owner mismatch
emits "Unauthorized".  Then: snoozed with a truthy snoozeMinutes sets status
snoozed plus snoozedUntil; every other case assigns the action as the status
(the schema enum of Notification.js admits exactly the three response
actions here) and sets completedAt when completed; in both branches the
userResponse stores the raw responseTime. -/
def respondSocket (store : List Notification) (nid uid : Nat) (action : String)
    (responseTime : Option Int) (snoozeMinutes : Option Int) (now : Int) :
    SocketOutcome × List Notification :=
  match store.find? (fun n => n.id == nid) with
  | none => (.errorMsg "Notification not found", store)
  | some n =>
    if n.user != uid then (.errorMsg "Unauthorized", store)
    else
      let updated :=
        if action == "snoozed" && snoozeMinutes.getD 0 != 0 then
          { n with
              status := .snoozed
              snoozedUntil := some (now + snoozeMinutes.getD 0 * 60 * 1000)
              userResponse := some
                { action := "snoozed", responseTime := responseTime, timestamp := now } }
        else
          let base :=
            { n with
                status := statusOfAction action
                userResponse := some
                  { action := action, responseTime := responseTime, timestamp := now } }
          if action == "completed" then { base with completedAt := some now } else base
      (.ok updated, store.map fun m => if m.id == n.id then updated else m)

/- ===== Scheduler lifecycle (notificationScheduler.js start/stop) ===== -/

/-- The three periodic jobs start() registers with node-cron: the due scan
every minute, the snooze scan every 30 seconds, the cleanup daily. -/
inductive CronTask
  | dueScan
  | snoozeScan
  | cleanup
deriving DecidableEq, Repr

/-- Scheduler lifecycle state: the isRunning flag plus the set of cron tasks
registered so far.  node-cron keeps a scheduled task running until it is
explicitly stopped or destroyed; the source keeps no handle to any of the
three tasks, so registration is append-only. -/
structure SchedulerState where
  isRunning : Bool
  tasks : List CronTask
deriving DecidableEq, Repr

/-- NotificationScheduler.start: an early return when already running,
otherwise three cron.schedule registrations and isRunning := true. -/
def SchedulerState.start (s : SchedulerState) : SchedulerState :=
  if s.isRunning then s
  else { isRunning := true,
         tasks := s.tasks ++ [CronTask.dueScan, CronTask.snoozeScan, CronTask.cleanup] }

/-- NotificationScheduler.stop: flips the flag and nothing else — no cron
task is stopped or destroyed. -/
def SchedulerState.stop (s : SchedulerState) : SchedulerState :=
  { s with isRunning := false }

/-- NotificationScheduler.getStatus: reports the flag and the constant 3. -/
structure SchedulerStatus where
  isRunning : Bool
  activeCronJobs : Nat
deriving DecidableEq, Repr

def SchedulerState.getStatus (s : SchedulerState) : SchedulerStatus :=
  { isRunning := s.isRunning, activeCronJobs := 3 }

/-- Iterating the adaptive-timing updater over a sequence of responses, each
event being (action, responseTime, now). -/
def foldAdaptive (r : Routine) (events : List (RAction × Int × Int)) : Routine :=
  events.foldl (fun s e => updateAdaptiveTiming s e.1 e.2.1 e.2.2) r

/- ===== Concrete fixtures used by counterexamples and witnesses ===== -/

/-- A routine with adaptive timing enabled whose stored offset sits at the
-15 floor named by the spec. -/
def rFloor : Routine :=
  { id := 20, user := 1, title := "Stretch", description := "Daily stretch",
    adaptiveTiming := { enabled := true, adjustment := -15 } }

/-- A routine with adaptive timing enabled and a zero offset. -/
def rBase : Routine :=
  { id := 21, user := 1, title := "Walk", description := "",
    adaptiveTiming := { enabled := true, adjustment := 0 } }

/-- A routine with adaptive timing enabled and offset -6 minutes. -/
def rMinusSix : Routine :=
  { id := 10, user := 1, title := "Water", description := "Drink water",
    adaptiveTiming := { enabled := true, adjustment := -6 } }

/-- An already-completed notification owned by user 1. -/
def nDone : Notification :=
  { id := 1, user := 1, routine := 10, title := "Water", message := "Drink water",
    scheduledFor := 0, status := .completed, completedAt := some 0 }

/-- A delivered notification owned by user 1. -/
def nLive : Notification :=
  { id := 2, user := 1, routine := 10, title := "Water", message := "Drink water",
    scheduledFor := 0, status := .delivered, deliveredAt := some 0 }

/-- A pending notification of routine 10. -/
def nPend : Notification :=
  { id := 3, user := 1, routine := 10, title := "Water", message := "Drink water",
    scheduledFor := 0, status := .pending }

/-- A snoozed notification of routine 10 whose wake time has passed. -/
def nSnoozed : Notification :=
  { id := 4, user := 1, routine := 10, title := "Water", message := "Drink water",
    scheduledFor := 0, status := .snoozed, snoozedUntil := some 0 }

end NotifyFlow

/- ======================= Theorems ======================= -/

namespace NotifyFlow

/-- Bounds of one step of the adaptive-timing switch: every branch of the
source clamps inside [-15, +15] whenever the input lies there. -/
theorem nextAdjustment_bounds (a : Int) (action : RAction) (rt : Int)
    (h1 : -15 ≤ a) (h2 : a ≤ 15) :
    -15 ≤ nextAdjustment a action rt ∧ nextAdjustment a action rt ≤ 15 := by
  cases action <;>
    simp only [nextAdjustment, Int.max_def, Int.min_def] <;>
    split_ifs <;> omega

/-- One updateAdaptiveTiming call keeps the stored adjustment in bounds. -/
theorem updateAdaptiveTiming_bounds (r : Routine) (action : RAction)
    (rt now : Int) (h1 : -15 ≤ r.adaptiveTiming.adjustment)
    (h2 : r.adaptiveTiming.adjustment ≤ 15) :
    -15 ≤ (updateAdaptiveTiming r action rt now).adaptiveTiming.adjustment ∧
    (updateAdaptiveTiming r action rt now).adaptiveTiming.adjustment ≤ 15 := by
  unfold updateAdaptiveTiming
  split
  · simpa using nextAdjustment_bounds r.adaptiveTiming.adjustment action rt h1 h2
  · exact ⟨h1, h2⟩

/-- C2 counterexample: the claim clamps symmetrically to [-15,+15], so an
offset already at -15 would stay at -15 on a fast completion; the source
instead clamps that branch at -10 (Math.max(-10, a - 1)) and moves the
stored offset from -15 up to -10. -/
theorem c2_clamp_counterexample :
    claimedAdjustment rFloor.adaptiveTiming.adjustment RAction.completed 15 = -15 ∧
    (updateAdaptiveTiming rFloor RAction.completed 15 0).adaptiveTiming.adjustment = -10 ∧
    ((-10 : Int) ≠ -15) := by decide

/-- C2 amended: for a routine with adaptive timing enabled, processing a
response applies the rule table with per-branch one-sided clamps — fast
completion: max(-10, a-1); slow completion: min(10, a+2); dismissed:
min(15, a+5); snoozed: min(10, a+3); completed in [30,120]s: unchanged —
and sets lastAdjustment to now; there is no global [-15,+15] clamp. -/
theorem c2_adaptive_rule_table (r : Routine) (action : RAction) (rt now : Int)
    (h : r.adaptiveTiming.enabled = true) :
    (updateAdaptiveTiming r action rt now).adaptiveTiming.lastAdjustment = some now ∧
    (updateAdaptiveTiming r action rt now).adaptiveTiming.adjustment =
      (match action with
       | .completed =>
           if rt < 30 then max (-10) (r.adaptiveTiming.adjustment - 1)
           else if rt > 120 then min 10 (r.adaptiveTiming.adjustment + 2)
           else r.adaptiveTiming.adjustment
       | .dismissed => min 15 (r.adaptiveTiming.adjustment + 5)
       | .snoozed => min 10 (r.adaptiveTiming.adjustment + 3)) := by
  unfold updateAdaptiveTiming nextAdjustment
  rw [h]
  cases action <;> simp

theorem c2_adaptive_rule_table_witness :
    (updateAdaptiveTiming rFloor RAction.completed 15 7).adaptiveTiming.lastAdjustment
      = some 7 :=
  (c2_adaptive_rule_table rFloor RAction.completed 15 7 (by decide)).1

/-- C3: for every routine whose stored offset starts inside [-15,+15] and
every sequence of adaptive-timing events, the offset stays inside [-15,+15]
after every update (each prefix of a sequence is itself a sequence). -/
theorem c3_offset_clamp_invariant (events : List (RAction × Int × Int))
    (r : Routine) (h1 : -15 ≤ r.adaptiveTiming.adjustment)
    (h2 : r.adaptiveTiming.adjustment ≤ 15) :
    -15 ≤ (foldAdaptive r events).adaptiveTiming.adjustment ∧
    (foldAdaptive r events).adaptiveTiming.adjustment ≤ 15 := by
  unfold foldAdaptive
  induction events generalizing r with
  | nil => exact ⟨h1, h2⟩
  | cons e es ih =>
    simp only [List.foldl_cons]
    obtain ⟨g1, g2⟩ := updateAdaptiveTiming_bounds r e.1 e.2.1 e.2.2 h1 h2
    exact ih _ g1 g2

theorem c3_offset_clamp_invariant_witness :
    -15 ≤ (foldAdaptive rBase
        [(RAction.dismissed, 0, 0), (RAction.snoozed, 200, 5)]).adaptiveTiming.adjustment ∧
    (foldAdaptive rBase
        [(RAction.dismissed, 0, 0), (RAction.snoozed, 200, 5)]).adaptiveTiming.adjustment ≤ 15 :=
  c3_offset_clamp_invariant [(RAction.dismissed, 0, 0), (RAction.snoozed, 200, 5)]
    rBase (by decide) (by decide)

/-- C6 counterexample: a successful dispatch marks the notification
delivered but leaves deliveryAttempts untouched (the source increments it
only in the catch block, whose save never validates), refuting an
unconditional +1 per invocation. -/
theorem c6_attempts_counterexample :
    (sendRealTimeNotification nPend rMinusSix true false 5).1.status = NStatus.delivered ∧
    (sendRealTimeNotification nPend rMinusSix true false 5).1.deliveryAttempts = 0 ∧
    (0 : Nat) ≠ nPend.deliveryAttempts + 1 := by decide

/-- C6 amended: a successful push sets status delivered and deliveredAt and
leaves deliveryAttempts unchanged; a throwing push persists nothing, because
the catch block saves status failed which the schema status enum rejects; a
missing transport leaves the notification untouched — the dispatcher never
changes deliveryAttempts on any path. -/
theorem c6_dispatch_effects (n : Notification) (r : Routine) (now : Int) (b : Bool) :
    (sendRealTimeNotification n r true false now).1 =
      { n with status := .delivered, deliveredAt := some now } ∧
    (sendRealTimeNotification n r true true now).1 = n ∧
    (sendRealTimeNotification n r false b now).1 = n ∧
    ∀ io pt : Bool,
      (sendRealTimeNotification n r io pt now).1.deliveryAttempts = n.deliveryAttempts := by
  refine ⟨rfl, rfl, rfl, fun io pt => ?_⟩
  cases io <;> cases pt <;> rfl

/-- C7 counterexample: user 2 does not own the routine of user 1, yet a
session of user 2 receives the full notification payload, because the
dispatcher follows the room emit with an io.emit notification-broadcast to
every connection. -/
theorem c7_broadcast_counterexample :
    rMinusSix.user = 1 ∧
    ((sendRealTimeNotification nPend rMinusSix true false 5).2.filter
        (fun e => sessionReceives 2 e)).map (fun e => e.payload)
      = [notificationPayload nPend rMinusSix 5] := by decide

/-- C7 amended: on a successful dispatch the notification event itself is
addressed only to the owning user room, but the same payload is also
emitted as notification-broadcast with no room target, and that broadcast
is received by a session of every user. -/
theorem c7_emit_targets (n : Notification) (r : Routine) (now : Int) (e : Emit)
    (he : e ∈ (sendRealTimeNotification n r true false now).2) :
    (e.event = "notification" → e.target = some r.user) ∧
    (e.event = "notification-broadcast" →
       e.target = none ∧ e.payload = notificationPayload n r now ∧
       ∀ uid : Nat, sessionReceives uid e = true) := by
  simp only [sendRealTimeNotification, Bool.not_true, Bool.false_eq_true, if_false,
    List.mem_cons, List.not_mem_nil, or_false] at he
  rcases he with rfl | rfl
  · refine ⟨fun _ => rfl, fun h => ?_⟩
    simp at h
  · exact ⟨fun h => by simp at h, fun _ => ⟨rfl, rfl, fun uid => rfl⟩⟩

theorem c7_emit_targets_witness :
    sessionReceives 2
      (⟨none, "notification-broadcast", notificationPayload nPend rMinusSix 5⟩ : Emit)
      = true :=
  ((c7_emit_targets nPend rMinusSix 5
      ⟨none, "notification-broadcast", notificationPayload nPend rMinusSix 5⟩
      (by decide)).2 rfl).2.2 2

/-- C10: after start() then stop(), getStatus reports not running, yet the
three cron tasks registered by start() are still registered (stop never
cancels them), and a further start() registers a second, duplicate set. -/
theorem c10_stop_keeps_tasks (s : SchedulerState) (h : s.isRunning = false) :
    (s.start.stop).getStatus.isRunning = false ∧
    (s.start.stop).tasks
      = s.tasks ++ [CronTask.dueScan, CronTask.snoozeScan, CronTask.cleanup] ∧
    (s.start.stop).start.tasks
      = s.tasks ++ [CronTask.dueScan, CronTask.snoozeScan, CronTask.cleanup]
          ++ [CronTask.dueScan, CronTask.snoozeScan, CronTask.cleanup] := by
  simp [SchedulerState.start, SchedulerState.stop, SchedulerState.getStatus, h]

/-- Unfolding of respondHttp when the guarded lookup succeeds. -/
theorem respondHttp_found (store : List Notification) (nid uid : Nat) (a : String)
    (rt sm : Option Int) (now : Int) (n : Notification)
    (h : store.find? (fun m => m.id == nid && m.user == uid && !m.processing) = some n) :
    respondHttp store nid uid a rt sm now =
      if validActions.contains a then
        (.ok (applyResponse n a rt sm now),
         store.map fun m => if m.id == n.id then applyResponse n a rt sm now else m)
      else (.invalidArgument, store) := by
  unfold respondHttp
  rw [h]

/-- The status written by applyResponse is always the requested action. -/
theorem applyResponse_status (n : Notification) (a : String) (rt sm : Option Int)
    (now : Int) : (applyResponse n a rt sm now).status = statusOfAction a := by
  unfold applyResponse
  split_ifs <;> rfl

/-- C1 counterexample: a respond call on an already-completed notification is
not rejected — the route never inspects the current status — and the stored
status is overwritten to the new action. -/
theorem c1_terminal_not_rejected :
    (respondHttp [nDone] 1 1 "dismissed" none none 9).1 ≠ HttpOutcome.conflict ∧
    nDone.status = NStatus.completed ∧
    ((respondHttp [nDone] 1 1 "dismissed" none none 9).2.map fun n => n.status)
      = [NStatus.dismissed] := by decide

/-- C1 amended: respond is accepted whenever the notification exists, is
owned by the caller, is not flagged processing, and the action is valid —
regardless of the current status, terminal or not, which the accepted call
simply overwrites; the only Conflict outcome comes from the processing
flag. -/
theorem c1_respond_ignores_status :
    (∀ (store : List Notification) (nid uid : Nat) (a : String)
       (rt sm : Option Int) (now : Int) (n : Notification),
       store.find? (fun m => m.id == nid && m.user == uid && !m.processing) = some n →
       a ∈ validActions →
       ∃ n', (respondHttp store nid uid a rt sm now).1 = .ok n' ∧
             n'.status = statusOfAction a) ∧
    (∀ (store : List Notification) (nid uid : Nat) (a : String)
       (rt sm : Option Int) (now : Int),
       (respondHttp store nid uid a rt sm now).1 = .conflict →
       ∃ n, n ∈ store ∧ n.id = nid ∧ n.user = uid ∧ n.processing = true) := by
  constructor
  · intro store nid uid a rt sm now n hfind ha
    have ha' : a = "completed" ∨ a = "snoozed" ∨ a = "dismissed" := by
      simpa [validActions] using ha
    have hc : validActions.contains a = true := by
      rcases ha' with rfl | rfl | rfl <;> rfl
    refine ⟨applyResponse n a rt sm now, ?_, applyResponse_status n a rt sm now⟩
    rw [respondHttp_found store nid uid a rt sm now n hfind, if_pos hc]
  · intro store nid uid a rt sm now hout
    unfold respondHttp at hout
    cases h1 : store.find? (fun m => m.id == nid && m.user == uid && !m.processing) with
    | some n =>
      rw [h1] at hout
      dsimp only at hout
      by_cases hv : validActions.contains a
      · rw [if_pos hv] at hout
        exact absurd hout (by simp)
      · rw [if_neg hv] at hout
        exact absurd hout (by simp)
    | none =>
      rw [h1] at hout
      dsimp only at hout
      cases h2 : store.find? (fun m => m.id == nid && m.user == uid) with
      | none =>
        rw [h2] at hout
        exact absurd hout (by simp)
      | some m =>
        rw [h2] at hout
        dsimp only at hout
        by_cases hp : m.processing
        · have hm := List.mem_of_find?_eq_some h2
          have hpred := List.find?_some h2
          simp only [Bool.and_eq_true, beq_iff_eq] at hpred
          exact ⟨m, hm, hpred.1, hpred.2, hp⟩
        · rw [if_neg hp] at hout
          exact absurd hout (by simp)

theorem c1_respond_ignores_status_witness :
    ∃ n', (respondHttp [nDone] 1 1 "completed" none none 3).1 = .ok n' ∧
          n'.status = statusOfAction "completed" :=
  c1_respond_ignores_status.1 [nDone] 1 1 "completed" none none 3 nDone
    (by decide) (by decide)

/-- C8 counterexample: on the socket path, a respond for a notification
owned by user 1 issued by user 2 is answered with Unauthorized, which is
distinguishable from the missing-notification answer and leaks existence. -/
theorem c8_unauthorized_counterexample :
    (respondSocket [nDone] 1 2 "completed" (some 5) none 3).1
      = SocketOutcome.errorMsg "Unauthorized" ∧
    SocketOutcome.errorMsg "Unauthorized"
      ≠ SocketOutcome.errorMsg "Notification not found" := by decide

/-- C8 amended: the HTTP respond route answers NotFound on an ownership
mismatch, indistinguishable from an absent notification, but the socket
notification-response handler answers Unauthorized in the same situation. -/
theorem c8_owner_mismatch :
    (∀ (store : List Notification) (nid uid : Nat) (a : String)
       (rt sm : Option Int) (now : Int),
       (∀ n ∈ store, n.id = nid → n.user ≠ uid) →
       respondHttp store nid uid a rt sm now = (.notFound, store)) ∧
    (∀ (store : List Notification) (nid uid : Nat) (a : String)
       (rt sm : Option Int) (now : Int) (n : Notification),
       store.find? (fun m => m.id == nid) = some n → n.user ≠ uid →
       respondSocket store nid uid a rt sm now = (.errorMsg "Unauthorized", store)) := by
  constructor
  · intro store nid uid a rt sm now h
    have h1 : store.find? (fun m => m.id == nid && m.user == uid && !m.processing)
        = none := by
      rw [List.find?_eq_none]
      intro x hx hpx
      simp only [Bool.and_eq_true, beq_iff_eq] at hpx
      exact h x hx hpx.1.1 hpx.1.2
    have h2 : store.find? (fun m => m.id == nid && m.user == uid) = none := by
      rw [List.find?_eq_none]
      intro x hx hpx
      simp only [Bool.and_eq_true, beq_iff_eq] at hpx
      exact h x hx hpx.1 hpx.2
    unfold respondHttp
    rw [h1, h2]
  · intro store nid uid a rt sm now n hfind hne
    have hb : (n.user != uid) = true := by simpa [bne_iff_ne] using hne
    unfold respondSocket
    rw [hfind]
    dsimp only
    rw [if_pos hb]

theorem c8_owner_mismatch_witness :
    respondHttp [nDone] 1 2 "completed" none none 3 = (HttpOutcome.notFound, [nDone]) ∧
    respondSocket [nDone] 1 2 "completed" none none 3
      = (SocketOutcome.errorMsg "Unauthorized", [nDone]) :=
  ⟨c8_owner_mismatch.1 [nDone] 1 2 "completed" none none 3 (by decide),
   c8_owner_mismatch.2 [nDone] 1 2 "completed" none none 3 nDone (by decide) (by decide)⟩

/-- C9: an accepted respond call writes completedAt = now for completed, no
extra timestamp for dismissed, snoozedUntil = now plus snoozeMinutes
(defaulting to 5) minutes for snoozed, and in all three cases records the
userResponse triple and sets the stored status to the action. -/
theorem c9_response_effects (store : List Notification) (nid uid : Nat)
    (rt sm : Option Int) (now : Int) (n : Notification)
    (hfind : store.find? (fun m => m.id == nid && m.user == uid && !m.processing)
      = some n) :
    (∃ n', (respondHttp store nid uid "completed" rt sm now).1 = .ok n' ∧
       n'.status = .completed ∧ n'.completedAt = some now ∧
       n'.snoozedUntil = n.snoozedUntil ∧
       n'.userResponse = some ⟨"completed", some (rt.getD 0), now⟩) ∧
    (∃ n', (respondHttp store nid uid "dismissed" rt sm now).1 = .ok n' ∧
       n'.status = .dismissed ∧ n'.completedAt = n.completedAt ∧
       n'.snoozedUntil = n.snoozedUntil ∧
       n'.userResponse = some ⟨"dismissed", some (rt.getD 0), now⟩) ∧
    (∃ n', (respondHttp store nid uid "snoozed" rt sm now).1 = .ok n' ∧
       n'.status = .snoozed ∧
       n'.snoozedUntil = some (now + sm.getD 5 * 60 * 1000) ∧
       n'.completedAt = n.completedAt ∧
       n'.userResponse = some ⟨"snoozed", some (rt.getD 0), now⟩) := by
  refine ⟨⟨applyResponse n "completed" rt sm now, ?_, rfl, rfl, rfl, rfl⟩,
          ⟨applyResponse n "dismissed" rt sm now, ?_, rfl, rfl, rfl, rfl⟩,
          ⟨applyResponse n "snoozed" rt sm now, ?_, rfl, rfl, rfl, rfl⟩⟩ <;>
    · rw [respondHttp_found store nid uid _ rt sm now n hfind]
      rfl

theorem c9_response_effects_witness :
    ∃ n', (respondHttp [nLive] 2 1 "snoozed" (some 12) none 100).1 = .ok n' ∧
      n'.status = .snoozed ∧
      n'.snoozedUntil = some (100 + (none : Option Int).getD 5 * 60 * 1000) ∧
      n'.completedAt = nLive.completedAt ∧
      n'.userResponse = some ⟨"snoozed", some ((some (12 : Int)).getD 0), 100⟩ :=
  (c9_response_effects [nLive] 2 1 (some 12) none 100 nLive (by decide)).2.2

/-- C4 counterexample: toggling an active routine off leaves its pending and
snoozed notifications exactly as they were — none becomes cancelled, because
scheduleRoutineNotifications returns early for an inactive routine — and the
next snooze scan re-delivers the snoozed one instead of ignoring it. -/
theorem c4_toggle_counterexample :
    (toggleRoutine rMinusSix [nPend, nSnoozed]).1.isActive = false ∧
    (toggleRoutine rMinusSix [nPend, nSnoozed]).2 = [nPend, nSnoozed] ∧
    ((toggleRoutine rMinusSix [nPend, nSnoozed]).2.map fun n => n.status)
      = [NStatus.pending, NStatus.snoozed] ∧
    ((checkSnoozedNotifications (toggleRoutine rMinusSix [nPend, nSnoozed]).2
        [(toggleRoutine rMinusSix [nPend, nSnoozed]).1] 5 true false).map
          fun n => n.status)
      = [NStatus.pending, NStatus.delivered] := by decide

/-- C4 amended: an inactive routine matches no due scan, and reactivating a
routine deletes (never resurrects) its pending and snoozed notifications;
but deactivating via toggle leaves every notification untouched, because
scheduleRoutineNotifications no-ops on inactive routines, and the method
that would mark them cancelled (cancelRoutineNotifications) exists yet is
invoked from nowhere. -/
theorem c4_toggle_amended :
    (∀ (r : Routine) (t : String) (d : Nat),
       r.isActive = false → routineDue r t d = false) ∧
    (∀ (r : Routine) (store : List Notification), r.isActive = true →
       (toggleRoutine r store).1.isActive = false ∧
       (toggleRoutine r store).2 = store) ∧
    (∀ (rid : Nat) (store : List Notification) (n : Notification),
       n ∈ cancelRoutineNotifications rid store → n.routine = rid →
       n.status ≠ .pending ∧ n.status ≠ .snoozed) ∧
    (∀ (r : Routine) (store : List Notification) (n : Notification),
       r.isActive = false → n ∈ (toggleRoutine r store).2 →
       n ∈ store ∧
       (n.routine = r.id → n.status ≠ .pending ∧ n.status ≠ .snoozed)) := by
  refine ⟨?_, ?_, ?_, ?_⟩
  · intro r t d h
    simp [routineDue, h]
  · intro r store h
    simp [toggleRoutine, scheduleRoutineNotifications, h]
  · intro rid store n hmem hrid
    rcases List.mem_map.mp hmem with ⟨m, hm, hfm⟩
    by_cases hc : (m.routine == rid &&
        [NStatus.pending, NStatus.snoozed].contains m.status) = true
    · rw [if_pos hc] at hfm
      rw [← hfm]
      exact ⟨by simp, by simp⟩
    · rw [if_neg hc] at hfm
      rw [← hfm]
      rw [← hfm] at hrid
      constructor <;> intro hs <;> apply hc <;>
        simp [hrid, hs, List.contains]
  · intro r store n h hmem
    simp only [toggleRoutine, scheduleRoutineNotifications, h, Bool.not_false,
      Bool.not_true, Bool.false_eq_true, if_false, List.mem_filter] at hmem
    refine ⟨hmem.1, fun hrid => ?_⟩
    have hp := hmem.2
    simp only [Bool.not_eq_true', Bool.and_eq_false_iff, beq_eq_false_iff_ne,
      ne_eq] at hp
    rcases hp with hp | hp
    · exact absurd hrid hp
    · constructor <;> intro hs <;> rw [hs] at hp <;> simp [List.contains] at hp

theorem c4_toggle_amended_witness :
    routineDue { rMinusSix with isActive := false } "09:00" 1 = false ∧
    (toggleRoutine rMinusSix [nPend, nSnoozed]).1.isActive = false ∧
    (toggleRoutine rMinusSix [nPend, nSnoozed]).2 = [nPend, nSnoozed] :=
  ⟨c4_toggle_amended.1 { rMinusSix with isActive := false } "09:00" 1 rfl,
   (c4_toggle_amended.2.1 rMinusSix [nPend, nSnoozed] rfl).1,
   (c4_toggle_amended.2.1 rMinusSix [nPend, nSnoozed] rfl).2⟩

/-- Fields of a dispatched notification on every path: user, routine and
scheduledFor are untouched and the stored status is either delivered (a
successful push) or unchanged (transport absent, or a throwing push whose
failed save is rejected by validation). -/
theorem sendRTN_fields (n : Notification) (r : Routine) (io pt : Bool)
    (t : Int) :
    (sendRealTimeNotification n r io pt t).1.user = n.user ∧
    (sendRealTimeNotification n r io pt t).1.routine = n.routine ∧
    (sendRealTimeNotification n r io pt t).1.scheduledFor = n.scheduledFor ∧
    ((sendRealTimeNotification n r io pt t).1.status = .delivered ∨
     (sendRealTimeNotification n r io pt t).1.status = n.status) := by
  cases io
  · exact ⟨rfl, rfl, rfl, Or.inr rfl⟩
  · cases pt
    · exact ⟨rfl, rfl, rfl, Or.inl rfl⟩
    · exact ⟨rfl, rfl, rfl, Or.inr rfl⟩

/-- C5 counterexample: a routine with adaptive adjustment -6 minutes fires
twice when the due scan runs twice in the same minute — the first run
schedules the notification 6 minutes in the past, outside the reach of the
five-minute lower-bound duplicate query of the second run. -/
theorem c5_dedup_counterexample :
    countFor (createAndSendNotification
        (createAndSendNotification [] rMinusSix 0 100 true false)
        rMinusSix 0 101 true false) rMinusSix.user rMinusSix.id = 2 ∧
    (2 : Nat) ≠ 1 := by decide

/-- C5 amended: the duplicate query bounds scheduledFor from below only
(scheduledFor at least T minus 5 minutes, any status in pending, delivered,
snoozed); a hit skips silently.  Two same-minute scans produce exactly one
notification provided the stored adaptive adjustment is at least -4 minutes,
so that the first created notification stays inside the lower-bound window
of the second scan — whatever the transport does, since a throwing or
absent push leaves the first notification pending, which the query also
matches. -/
theorem c5_dedup_amended :
    (∀ (store : List Notification) (r : Routine) (now : Int) (freshId : Nat)
       (io pt : Bool), hasRecentNotification store r.user r.id now = true →
       createAndSendNotification store r now freshId io pt = store) ∧
    (∀ (store : List Notification) (r : Routine) (t1 t2 : Int) (id1 id2 : Nat)
       (io1 pt1 io2 pt2 : Bool),
       hasRecentNotification store r.user r.id t1 = false →
       -4 ≤ r.adaptiveTiming.adjustment → t1 ≤ t2 → t2 ≤ t1 + 59000 →
       createAndSendNotification (createAndSendNotification store r t1 id1 io1 pt1)
           r t2 id2 io2 pt2
         = createAndSendNotification store r t1 id1 io1 pt1 ∧
       countFor (createAndSendNotification store r t1 id1 io1 pt1) r.user r.id
         = countFor store r.user r.id + 1) := by
  constructor
  · intro store r now freshId io pt h
    unfold createAndSendNotification
    rw [h]
    rfl
  · intro store r t1 t2 id1 id2 io1 pt1 io2 pt2 h0 hadj h12 h21
    have hs1 : createAndSendNotification store r t1 id1 io1 pt1
        = store ++ [(sendRealTimeNotification (dueNotification r t1 id1) r
                       io1 pt1 t1).1] := by
      unfold createAndSendNotification
      rw [h0]
      rfl
    obtain ⟨hu, hr, hs, hst⟩ :=
      sendRTN_fields (dueNotification r t1 id1) r io1 pt1 t1
    have hsched : t2 - 5 * 60 * 1000 ≤
        (sendRealTimeNotification (dueNotification r t1 id1) r io1 pt1 t1).1.scheduledFor := by
      rw [hs]
      show t2 - 5 * 60 * 1000 ≤ t1 + appliedAdjustment r * 60 * 1000
      unfold appliedAdjustment
      split_ifs <;> omega
    have hpd : ((sendRealTimeNotification (dueNotification r t1 id1) r io1 pt1 t1).1.user
          == r.user &&
        (sendRealTimeNotification (dueNotification r t1 id1) r io1 pt1 t1).1.routine
          == r.id &&
        decide (t2 - 5 * 60 * 1000 ≤
          (sendRealTimeNotification (dueNotification r t1 id1) r io1 pt1 t1).1.scheduledFor) &&
        [NStatus.pending, NStatus.delivered, NStatus.snoozed].contains
          (sendRealTimeNotification (dueNotification r t1 id1) r io1 pt1 t1).1.status)
        = true := by
      have h1 : ((sendRealTimeNotification (dueNotification r t1 id1) r io1 pt1 t1).1.user
          == r.user) = true := by
        rw [hu]
        exact beq_self_eq_true r.user
      have h2 : ((sendRealTimeNotification (dueNotification r t1 id1) r io1 pt1 t1).1.routine
          == r.id) = true := by
        rw [hr]
        exact beq_self_eq_true r.id
      have h4 : ([NStatus.pending, NStatus.delivered, NStatus.snoozed].contains
          (sendRealTimeNotification (dueNotification r t1 id1) r io1 pt1 t1).1.status)
          = true := by
        rcases hst with hst | hst <;> rw [hst] <;> rfl
      rw [h1, h2, h4, decide_eq_true hsched]
      rfl
    have hhit : hasRecentNotification
        (store ++ [(sendRealTimeNotification (dueNotification r t1 id1) r io1 pt1 t1).1])
        r.user r.id t2 = true := by
      unfold hasRecentNotification
      rw [List.any_append]
      have : ([(sendRealTimeNotification (dueNotification r t1 id1) r io1 pt1 t1).1].any
          fun n => n.user == r.user && n.routine == r.id &&
            decide (t2 - 5 * 60 * 1000 ≤ n.scheduledFor) &&
            [NStatus.pending, NStatus.delivered, NStatus.snoozed].contains n.status)
          = true := by
        rw [List.any_cons]
        rw [hpd]
        rfl
      rw [this]
      exact Bool.or_true _
    constructor
    · rw [hs1]
      unfold createAndSendNotification
      rw [hhit]
      rfl
    · rw [hs1]
      unfold countFor
      rw [List.countP_append]
      have : ([(sendRealTimeNotification (dueNotification r t1 id1) r io1 pt1 t1).1].countP
          fun n => n.user == r.user && n.routine == r.id) = 1 := by
        have h1 : ((sendRealTimeNotification (dueNotification r t1 id1) r io1 pt1 t1).1.user
            == r.user) = true := by
          rw [hu]
          exact beq_self_eq_true r.user
        have h2 : ((sendRealTimeNotification (dueNotification r t1 id1) r io1 pt1 t1).1.routine
            == r.id) = true := by
          rw [hr]
          exact beq_self_eq_true r.id
        simp [List.countP_cons, h1, h2]
      rw [this]

theorem c5_dedup_amended_witness :
    createAndSendNotification (createAndSendNotification [] rBase 0 100 true true)
        rBase 30000 101 true false
      = createAndSendNotification [] rBase 0 100 true true ∧
    countFor (createAndSendNotification [] rBase 0 100 true true) rBase.user rBase.id
      = countFor ([] : List Notification) rBase.user rBase.id + 1 :=
  c5_dedup_amended.2 [] rBase 0 30000 100 101 true true true false (by decide)
    (by decide) (by decide) (by decide)

theorem c10_stop_keeps_tasks_witness :
    ((⟨false, []⟩ : SchedulerState).start.stop).getStatus.isRunning = false ∧
    ((⟨false, []⟩ : SchedulerState).start.stop).tasks
      = ([] : List CronTask) ++ [CronTask.dueScan, CronTask.snoozeScan, CronTask.cleanup] ∧
    ((⟨false, []⟩ : SchedulerState).start.stop).start.tasks
      = ([] : List CronTask) ++ [CronTask.dueScan, CronTask.snoozeScan, CronTask.cleanup]
          ++ [CronTask.dueScan, CronTask.snoozeScan, CronTask.cleanup] :=
  c10_stop_keeps_tasks ⟨false, []⟩ rfl

end NotifyFlow
